import Mathlib

set_option maxRecDepth 100000

/-!
Verification of the langgraph-whatsapp-agent message-ingestion gateway.

A shallow embedding, in Lean 4, of the gateway code of the repository
(`src/langgraph_whatsapp/server.py`, `channel.py`, `agent.py`,
`utils/twilio_utils.py`, `utils/media_utils.py`, `utils/speech_to_text.py`),
together with theorems settling the specification's claims about it.

Conventions of the embedding:
* Python strings are `String`, byte strings are `List Nat` (each entry < 256).
* Web-form payloads (`request.form()`, `parse_qs`) are association lists of
  key/value pairs, `Form` below.
* External effects (HTTP media download, the Whisper transcription backend,
  the LangGraph streaming run, the outbound Twilio send) are oracles packaged
  in an `ExternalWorld`; every network call is also recorded as an `Event` so
  that temporal and "no downstream call" claims are statements about traces.
* Fallible Python code (`raise` / `try` / `except`) is embedded in
  `M := EStateM String (List Event)`: an exception is `EStateM.Result.error`
  carrying the message; the event trace accumulated so far survives the
  exception, exactly as real side effects survive a Python exception.
-/

/-- A web form: ordered key/value pairs, as decoded from an
`application/x-www-form-urlencoded` body. -/
def Form := List (String × String)

/-- First value carried by key `k` (the `parse_qs(...)[k][0]` access used by
the middleware's flattening of the form dict). -/
def Form.getFirst (f : Form) (k dflt : String) : String :=
  match List.find? (fun p => p.1 = k) f with
  | some p => p.2
  | none => dflt

/-- Starlette `FormData` is backed by `dict(items)`, so `form.get(k, d)`
yields the last value carried by `k`, or `d` when absent. -/
def Form.get (f : Form) (k dflt : String) : String :=
  match List.find? (fun p => p.1 = k) f.reverse with
  | some p => p.2
  | none => dflt

/-- Whether a key is present at all (`k in form`). -/
def Form.has (f : Form) (k : String) : Bool :=
  (List.find? (fun p => p.1 = k) f).isSome

/-! Structural (kernel-computable) re-implementations of the string
primitives the Python code uses; each mirrors the CPython behavior on the
ASCII inputs in play. -/

/-- Embeds `s.lower()` over code points. -/
def strLower (s : String) : String := String.mk (s.toList.map Char.toLower)

/-- Embeds `s.startswith(pre)`. -/
def strStartsWith (s pre : String) : Bool := pre.toList.isPrefixOf s.toList

/-- Embeds `c in s` for one character. -/
def strContains (s : String) (c : Char) : Bool := s.toList.contains c

/-- Helper of `splitChar`: accumulate the current segment reversed. -/
def splitCharAux (c : Char) : List Char → List Char → List (List Char)
  | [], acc => [acc.reverse]
  | x :: xs, acc =>
    if x = c then acc.reverse :: splitCharAux c xs []
    else splitCharAux c xs (x :: acc)

/-- Python `s.split(sep)` for a one-character separator. -/
def splitChar (c : Char) (s : String) : List String :=
  (splitCharAux c s.toList []).map String.mk

/-- Python `str.strip()` with no argument: remove leading and trailing
whitespace (the inputs in play are ASCII). -/
def pyStrip (s : String) : String :=
  String.mk
    (((s.toList.dropWhile Char.isWhitespace).reverse.dropWhile
        Char.isWhitespace).reverse)

/-- Python truthiness of an `Optional[str]`: `None` and `""` are falsy. -/
def truthyOpt : Option String → Bool
  | some s => s ≠ ""
  | none => false

/-- ASCII decimal digit test. -/
def isAsciiDigit (c : Char) : Bool := '0' ≤ c && c ≤ '9'

/-- After a leading digit, Python `int()` accepts further digits with single
underscores strictly between digits. -/
def digitsTail : List Char → Bool
  | [] => true
  | '_' :: [] => false
  | '_' :: c :: rest => isAsciiDigit c && digitsTail rest
  | c :: rest => isAsciiDigit c && digitsTail rest

/-- Digit run accepted by Python `int()` (nonempty, underscores only between
digits). -/
def digitRun : List Char → Bool
  | [] => false
  | c :: rest => isAsciiDigit c && digitsTail rest

/-- Numeric value of a digit run, ignoring underscores. -/
def digitsVal (cs : List Char) : Nat :=
  (cs.filter (fun c => c ≠ '_')).foldl (fun a c => a * 10 + (c.toNat - 48)) 0

/-- Python `int(s)` on an ASCII string: strip whitespace, optional sign, then
a digit run; `none` models the `ValueError` raised on anything else. -/
def pyInt (s : String) : Option Int :=
  match (pyStrip s).toList with
  | '+' :: rest => if digitRun rest then some (digitsVal rest) else none
  | '-' :: rest => if digitRun rest then some (-(digitsVal rest : Int)) else none
  | cs => if digitRun cs then some (digitsVal cs) else none

/-! ## `utils/media_utils.py` -/

/-- Embeds `clean_content_type`: drop parameters after `;`, strip, lower-case;
empty input maps to the empty string. -/
def clean_content_type (content_type : String) : String :=
  if content_type = "" then ""
  else strLower (pyStrip ((splitChar ';' content_type).headD ""))

/-- The `content_type_map` table of `get_file_extension_from_content_type`. -/
def content_type_map : List (String × String) :=
  [("audio/mpeg", ".mp3"), ("audio/mp3", ".mp3"), ("audio/mp4", ".mp4"),
   ("audio/m4a", ".m4a"), ("audio/wav", ".wav"), ("audio/wave", ".wav"),
   ("audio/x-wav", ".wav"), ("audio/flac", ".flac"), ("audio/ogg", ".ogg"),
   ("audio/webm", ".webm"), ("audio/x-m4a", ".m4a"), ("audio/aac", ".m4a"),
   ("audio/opus", ".ogg"), ("audio/x-opus", ".ogg"), ("audio/vorbis", ".ogg"),
   ("audio/x-vorbis", ".ogg"), ("audio/amr", ".m4a"), ("audio/3gpp", ".m4a"),
   ("audio/x-aiff", ".wav"), ("audio/aiff", ".wav"),
   ("audio/ogg; codecs=opus", ".ogg"), ("application/ogg", ".ogg"),
   ("image/jpeg", ".jpg"), ("image/jpg", ".jpg"), ("image/png", ".png"),
   ("image/gif", ".gif"), ("image/webp", ".webp"), ("image/bmp", ".bmp"),
   ("image/tiff", ".tiff"), ("image/svg+xml", ".svg"),
   ("video/mp4", ".mp4"), ("video/webm", ".webm"), ("video/ogg", ".ogv"),
   ("video/avi", ".avi"), ("video/mov", ".mov"), ("video/wmv", ".wmv"),
   ("video/flv", ".flv"),
   ("application/pdf", ".pdf"), ("text/plain", ".txt"),
   ("application/json", ".json"), ("application/xml", ".xml"),
   ("text/html", ".html"), ("text/css", ".css"),
   ("application/javascript", ".js")]

/-- Embeds `get_file_extension_from_content_type`: table lookup on the cleaned
content type, defaulting to `.bin`. -/
def get_file_extension_from_content_type (content_type : String) : String :=
  match List.find? (fun p => p.1 = clean_content_type content_type)
      content_type_map with
  | some p => p.2
  | none => ".bin"

/-- Embeds `is_audio_content_type`. -/
def is_audio_content_type (content_type : String) : Bool :=
  strStartsWith (clean_content_type content_type) "audio/"
    || clean_content_type content_type = "application/ogg"

/-- Embeds `is_image_content_type`. -/
def is_image_content_type (content_type : String) : Bool :=
  strStartsWith (clean_content_type content_type) "image/"

/-- Python `s.rsplit(sep, 1)` helper: split a string at its last `.`,
returning the base and (when a dot exists) the suffix after it. -/
def rsplitDot (s : String) : String × Option String :=
  let parts := splitChar '.' s
  if parts.length ≤ 1 then (s, none)
  else (String.intercalate "." parts.dropLast, some (parts.getLastD ""))

/-- Python `str.isspace()`: nonempty and all whitespace. -/
def pyIsSpace (s : String) : Bool :=
  s ≠ "" && s.toList.all Char.isWhitespace

/-- Embeds `ensure_valid_filename`: force the extension implied by the content type
onto the filename. -/
def ensure_valid_filename (filename : String) (content_type : Option String)
    (default_name : String) : String :=
  let filename := if filename = "" || pyIsSpace filename then default_name
                  else filename
  match content_type with
  | some ct =>
    if ct ≠ "" then
      let expected := get_file_extension_from_content_type ct
      if strContains filename '.' then
        let (base, suffix) := rsplitDot filename
        let current := "." ++ strLower (suffix.getD "")
        if current ≠ expected then base ++ expected else filename
      else filename ++ expected
    else if strContains filename '.' then filename else filename ++ ".bin"
  | none => if strContains filename '.' then filename else filename ++ ".bin"

/-! ## Base64 (Python `base64.b64encode`, standard alphabet, `=` padding) -/

/-- The standard base64 alphabet. -/
def b64Alphabet : List Char :=
  "ABCDEFGHIJKLMNOPQRSTUVWXYZabcdefghijklmnopqrstuvwxyz0123456789+/".toList

/-- The base64 character for a 6-bit value. -/
def b64Char (n : Nat) : Char := b64Alphabet.getD n 'A'

/-- Base64-encode a byte string, three bytes at a time. -/
def base64Encode : List Nat → String
  | [] => ""
  | [a] =>
    String.mk [b64Char (a / 4), b64Char (a % 4 * 16)] ++ "=="
  | [a, b] =>
    String.mk [b64Char (a / 4), b64Char (a % 4 * 16 + b / 16),
               b64Char (b % 16 * 4)] ++ "="
  | a :: b :: c :: rest =>
    String.mk [b64Char (a / 4), b64Char (a % 4 * 16 + b / 16),
               b64Char (b % 16 * 4 + c / 64), b64Char (c % 64)]
      ++ base64Encode rest

/-! ## UTF-8, SHA-1 and `uuid.uuid5` (for the `thread_id` derivation) -/

/-- UTF-8 encoding of one code point. -/
def utf8Char (c : Nat) : List Nat :=
  if c < 128 then [c]
  else if c < 2048 then [192 + c / 64, 128 + c % 64]
  else if c < 65536 then
    [224 + c / 4096, 128 + c / 64 % 64, 128 + c % 64]
  else
    [240 + c / 262144, 128 + c / 4096 % 64, 128 + c / 64 % 64, 128 + c % 64]

/-- Python `s.encode("utf-8")`. -/
def utf8Bytes (s : String) : List Nat :=
  (s.toList.map (fun c => utf8Char c.toNat)).flatten

/-- Truncate to 32 bits. -/
def w32 (n : Nat) : Nat := n % 4294967296

/-- 32-bit left rotation (argument below `2 ^ 32`). -/
def rotl32 (n s : Nat) : Nat := w32 (n <<< s) ||| (n >>> (32 - s))

/-- Big-endian byte representation of `n` in `k` bytes. -/
def beBytes : Nat → Nat → List Nat
  | 0, _ => []
  | k + 1, n => beBytes k (n / 256) ++ [n % 256]

/-- SHA-1 message padding: append `0x80`, zero bytes to 56 mod 64, then the
bit length in 8 big-endian bytes. -/
def sha1Pad (msg : List Nat) : List Nat :=
  let r := (msg.length + 1) % 64
  let z := if r ≤ 56 then 56 - r else 120 - r
  msg ++ [128] ++ List.replicate z 0 ++ beBytes 8 (8 * msg.length)

/-- Group a byte list into big-endian 32-bit words. -/
def bytesToWords : List Nat → List Nat
  | a :: b :: c :: d :: rest =>
    (((a * 256 + b) * 256 + c) * 256 + d) :: bytesToWords rest
  | _ => []

/-- Extend the 16 block words to 80 schedule words. -/
def sha1Extend (ws : Array Nat) : Array Nat :=
  (List.range 64).foldl
    (fun ws i =>
      let j := i + 16
      ws.push (rotl32 ((ws.getD (j - 3) 0) ^^^ (ws.getD (j - 8) 0) ^^^
                       (ws.getD (j - 14) 0) ^^^ (ws.getD (j - 16) 0)) 1))
    ws

/-- One SHA-1 round. -/
def sha1Round (st : Nat × Nat × Nat × Nat × Nat) (iw : Nat × Nat) :
    Nat × Nat × Nat × Nat × Nat :=
  let (a, b, c, d, e) := st
  let (i, wi) := iw
  let fk : Nat × Nat :=
    if i < 20 then ((b &&& c) ||| ((b ^^^ 4294967295) &&& d), 1518500249)
    else if i < 40 then (b ^^^ c ^^^ d, 1859775393)
    else if i < 60 then ((b &&& c) ||| (b &&& d) ||| (c &&& d), 2400959708)
    else (b ^^^ c ^^^ d, 3395469782)
  let temp := w32 (rotl32 a 5 + fk.1 + e + fk.2 + wi)
  (temp, a, rotl32 b 30, c, d)

/-- Compress one 64-byte block into the running hash state. -/
def sha1Block (h : Nat × Nat × Nat × Nat × Nat) (block : List Nat) :
    Nat × Nat × Nat × Nat × Nat :=
  let ws := sha1Extend (bytesToWords block).toArray
  let (h0, h1, h2, h3, h4) := h
  let init := (h0, h1, h2, h3, h4)
  let (a, b, c, d, e) :=
    (((List.range 80).zip ws.toList).foldl sha1Round init)
  (w32 (h0 + a), w32 (h1 + b), w32 (h2 + c), w32 (h3 + d), w32 (h4 + e))

/-- Split a byte list into 64-byte blocks (structural recursion on a fuel
bound, so that the definition computes inside the kernel). -/
def chunks64Aux : Nat → List Nat → List (List Nat)
  | 0, _ => []
  | _, [] => []
  | fuel + 1, bs => bs.take 64 :: chunks64Aux fuel (bs.drop 64)

/-- Split a padded message into 64-byte blocks. -/
def chunks64 (bs : List Nat) : List (List Nat) := chunks64Aux bs.length bs

/-- SHA-1 digest (20 bytes) of a byte string. -/
def sha1 (msg : List Nat) : List Nat :=
  let (h0, h1, h2, h3, h4) :=
    (chunks64 (sha1Pad msg)).foldl sha1Block
      (1732584193, 4023233417, 2562383102, 271733878, 3285377520)
  beBytes 4 h0 ++ beBytes 4 h1 ++ beBytes 4 h2 ++ beBytes 4 h3 ++ beBytes 4 h4

/-- The sixteen bytes of `uuid.NAMESPACE_DNS`. -/
def NAMESPACE_DNS : List Nat :=
  [107, 167, 184, 16, 157, 173, 17, 209, 128, 180, 0, 192, 79, 212, 48, 200]

/-- Lower-case hex rendering of one byte. -/
def hexByte (n : Nat) : String :=
  let d := fun k => "0123456789abcdef".toList.getD k '0'
  String.mk [d (n / 16), d (n % 16)]

/-- Hex rendering of a byte list. -/
def hexBytes (bs : List Nat) : String := String.join (bs.map hexByte)

/-- Embeds `str(...)` of a UUID: 8-4-4-4-12 lower-case hex groups. -/
def uuidFormat (bs : List Nat) : String :=
  hexBytes (bs.take 4) ++ "-" ++ hexBytes ((bs.drop 4).take 2) ++ "-" ++
  hexBytes ((bs.drop 6).take 2) ++ "-" ++ hexBytes ((bs.drop 8).take 2) ++
  "-" ++ hexBytes (bs.drop 10)

/-- Embeds `str(uuid.uuid5(uuid.NAMESPACE_DNS, name))`: SHA-1 of namespace bytes
plus the UTF-8 name, truncated to 16 bytes, with the version nibble forced
to 5 and the variant bits to RFC 4122.  This is the session/thread
derivation of `agent.py` line 61. -/
def uuid5dns (name : String) : String :=
  let digest := (sha1 (NAMESPACE_DNS ++ utf8Bytes name)).take 16
  let b6 := (digest.getD 6 0) % 16 + 80
  let b8 := (digest.getD 8 0) % 64 + 128
  uuidFormat ((digest.set 6 b6).set 8 b8)

/-! ## Effects: events, the exception/trace monad, and the external world -/

/-- Externally visible effects of one webhook invocation.  `respond` is the
HTTP response handed back to the webhook caller; the others are outbound
network calls. -/
inductive Event where
  | respond (status : Nat) (body : String)
  | fetchMedia (url : String)
  | transcribe (filename : String)
  | agentInvoke (thread_id : String)
  | sendMessage (fromNumber toNumber body : String)
deriving Repr, DecidableEq

/-- A processing step in the sense of the two-phase protocol: any outbound
call (media fetch, transcription, agent run, outbound send). -/
def Event.isProcessing : Event → Bool
  | .respond _ _ => false
  | _ => true

/-- The outbound send to the user. -/
def Event.isSend : Event → Bool
  | .sendMessage _ _ _ => true
  | _ => false

/-- Exception-plus-trace monad: Python code that may `raise` (the `String` is
the exception rendering) while appending `Event`s.  The trace accumulated
before an exception is preserved, as real side effects are. -/
def M (α : Type) : Type := List Event → EStateM.Result String (List Event) α

instance : Monad M where
  pure a := fun t => .ok a t
  bind x f := fun t =>
    match x t with
    | .ok a t' => f a t'
    | .error e t' => .error e t'

/-- Record one event. -/
def M.emit (e : Event) : M Unit := fun t => .ok () (t ++ [e])

/-- Python `raise`. -/
def M.throw {α : Type} (e : String) : M α := fun t => .error e t

/-- Python `try ... except Exception: ...` — the handler sees the trace as
left by the failed body. -/
def M.tryCatch {α : Type} (x : M α) (h : String → M α) : M α := fun t =>
  match x t with
  | .ok a t' => .ok a t'
  | .error e t' => h e t'

/-- Lift a pure `Except` (an external call's outcome) into `M`. -/
def M.ofExcept {α : Type} : Except String α → M α
  | .ok a => pure a
  | .error e => M.throw e

/-- Image payload dict built by `process_twilio_media`
(`{"url": ..., "data_uri": ...}`). -/
structure ImageDict where
  url : String
  data_uri : String
deriving Repr, DecidableEq

/-- A content block of the agent request message (`{"type": "text", ...}` or
a media block with a url source). -/
inductive ContentBlock where
  | text (s : String)
  | media (mediaTypeTag url media_type : String)
deriving Repr, DecidableEq

/-- The `content` field of the user message: a block list, or the raw string
when the block list would be empty. -/
inductive MsgContent where
  | blocks (bs : List ContentBlock)
  | raw (s : String)
deriving Repr, DecidableEq

/-- The run payload assembled by `Agent.invoke`; the `config` and
`metadata` fields, pass-through configuration data, are omitted. -/
structure RunPayload where
  thread_id : String
  assistant_id : String
  role : String
  content : MsgContent
  multitask_strategy : String
  if_not_exists : String
  stream_mode : String
deriving Repr, DecidableEq

/-- One message of a streamed checkpoint (`{"content": ...}`). -/
structure RespMsg where
  content : String
deriving Repr, DecidableEq

/-- One streamed chunk: `chunk.data` holds the checkpoint with its
`messages` list. -/
structure Chunk where
  messages : List RespMsg
deriving Repr, DecidableEq

/-- Configuration and external collaborators: environment variables read by
`config.py`, plus oracles for every outbound network call.  Oracles are pure
functions — the same call always yields the same outcome within one run. -/
structure ExternalWorld where
  twilio_account_sid : Option String
  twilio_auth_token : Option String
  twilio_whatsapp_number : Option String
  openai_api_key : Option String
  assistant_id : String
  /-- Embeds `requests.get(url, auth=...)` on a media URL: raw bytes plus the
  `Content-Type` header when present; `error` is a raised
  `requests.RequestException` (non-2xx or transport failure). -/
  fetchMedia : String → Except String (List Nat × Option String)
  /-- The Whisper transcription call on (filename, audio bytes): the
  transcript text, or a raised backend error. -/
  whisper : String → List Nat → Except String String
  /-- Embeds `client.runs.stream(...)`: the sequence of checkpoint values. -/
  agentStream : RunPayload → List Chunk
  /-- Embeds `twilio_client.messages.create(body, from_, to)`: the message SID, or
  a raised API error. -/
  sendCreate : String → String → String → Except String String

/-! ## `utils/twilio_utils.py` -/

/-- Embeds `validate_twilio_credentials`: raise `RuntimeError` unless both the
account SID and auth token are set and nonempty. -/
def validate_twilio_credentials (w : ExternalWorld) : M Unit :=
  if truthyOpt w.twilio_account_sid && truthyOpt w.twilio_auth_token then
    pure ()
  else M.throw "RuntimeError: Twilio credentials are missing"

/-- Embeds `download_twilio_media`: check credentials, then issue the authenticated
GET; the content type defaults to `application/octet-stream` when the
response carries no `Content-Type` header. -/
def download_twilio_media (w : ExternalWorld) (url : String) :
    M (List Nat × String) := do
  validate_twilio_credentials w
  M.emit (.fetchMedia url)
  match w.fetchMedia url with
  | .ok (bs, hdr) => pure (bs, hdr.getD "application/octet-stream")
  | .error e => M.throw e

/-- Embeds `bytes_to_data_uri`: `data:content_type;base64,encoded`. -/
def bytes_to_data_uri (media_bytes : List Nat) (content_type : String) :
    String :=
  "data:" ++ content_type ++ ";base64," ++ base64Encode media_bytes

/-- Embeds `twilio_url_to_data_uri`: download, pick `content_type or detected`, and
only when no content type was passed coerce a non-image detected type to
`image/jpeg`, then build the data URI. -/
def twilio_url_to_data_uri (w : ExternalWorld) (url : String)
    (content_type : Option String) : M String := do
  let (media_bytes, detected) ← download_twilio_media w url
  let mime := match content_type with
    | some ct => if ct ≠ "" then ct else detected
    | none => detected
  let mime :=
    if content_type = none && mime ≠ "" && ¬ strStartsWith mime "image/" then
      "image/jpeg"
    else mime
  pure (bytes_to_data_uri media_bytes mime)

/-- Embeds `extract_filename_from_url`: last `/`-separated segment, or the default
when the URL has no slash. -/
def extract_filename_from_url (url default_filename : String) : String :=
  if strContains url '/' then (splitChar '/' url).getLastD default_filename
  else default_filename

/-! ## `utils/speech_to_text.py` -/

/-- Embeds `speech_to_text`: refuse when the OpenAI key is unset, the bytes are
empty, or the payload is under 100 bytes; otherwise normalize the filename
and call the Whisper backend, re-raising its errors. -/
def speech_to_text (w : ExternalWorld) (audio_bytes : List Nat)
    (filename : String) (content_type : Option String) : M String := do
  if ¬ truthyOpt w.openai_api_key then
    M.throw "ValueError: OpenAI API key not configured."
  else if audio_bytes = [] then
    M.throw "ValueError: Audio bytes cannot be empty"
  else if audio_bytes.length < 100 then
    M.throw "ValueError: Audio file too small, likely not valid audio"
  else do
    let filename := ensure_valid_filename filename content_type "audio"
    M.emit (.transcribe filename)
    match w.whisper filename audio_bytes with
    | .ok transcript => pure transcript
    | .error e => M.throw e

/-! ## `channel.py` — media normalization -/

/-- The body of the `try` block of `twilio_url_to_audio_transcript`:
download, derive a filename, transcribe; a truthy transcript is returned,
an empty one becomes `None`. -/
def audio_transcript_attempt (w : ExternalWorld) (url content_type : String) :
    M (Option String) := do
  let (audio_bytes, _) ← download_twilio_media w url
  let filename := extract_filename_from_url url "audio.ogg"
  let transcript ← speech_to_text w audio_bytes filename (some content_type)
  if transcript ≠ "" then pure (some transcript) else pure none

/-- Embeds `twilio_url_to_audio_transcript`: any exception in the attempt is caught
and replaced by the fixed sentinel transcript. -/
def twilio_url_to_audio_transcript (w : ExternalWorld)
    (url content_type : String) : M (Option String) :=
  M.tryCatch (audio_transcript_attempt w url content_type)
    (fun _ => pure (some "[Audio transcription failed]"))

/-- The loop body of `process_twilio_media` over the media indices: route
each attachment by content type; a failed image download is logged and the
image omitted; a falsy transcript is not appended. -/
def process_media_loop (w : ExternalWorld) (form : Form) :
    List Nat → List ImageDict × List String → M (List ImageDict × List String)
  | [], acc => pure acc
  | i :: rest, (images, audio_transcripts) => do
    let url := Form.get form ("MediaUrl" ++ toString i) ""
    let ctype := Form.get form ("MediaContentType" ++ toString i) ""
    if url ≠ "" && is_image_content_type ctype then do
      let images' ← M.tryCatch
        (do
          let du ← twilio_url_to_data_uri w url (some ctype)
          pure (images ++ [⟨url, du⟩]))
        (fun _ => pure images)
      process_media_loop w form rest (images', audio_transcripts)
    else if url ≠ "" && is_audio_content_type ctype then do
      let transcript ← twilio_url_to_audio_transcript w url ctype
      let audio_transcripts' := match transcript with
        | some t => if t ≠ "" then audio_transcripts ++ [t]
                    else audio_transcripts
        | none => audio_transcripts
      process_media_loop w form rest (images, audio_transcripts')
    else
      process_media_loop w form rest (images, audio_transcripts)

/-- Embeds `process_twilio_media`: parse `NumMedia` (default `"0"`; a malformed
value raises `ValueError` before any attachment is touched), then fold the
loop over `range(NumMedia)`. -/
def process_twilio_media (w : ExternalWorld) (form : Form) :
    M (List ImageDict × List String) :=
  match pyInt (Form.get form "NumMedia" "0") with
  | none => M.throw "ValueError: invalid literal for int() with base 10"
  | some n => process_media_loop w form (List.range n.toNat) ([], [])

/-- Embeds `prepare_message_content`: strip the `Body` text, process media, and
when transcripts exist join them with blank lines and append the labeled
text message. -/
def prepare_message_content (w : ExternalWorld) (form : Form) :
    M (String × List ImageDict) := do
  let content := pyStrip (Form.get form "Body" "")
  let (images, audio_transcripts) ← process_twilio_media w form
  let content :=
    if audio_transcripts ≠ [] then
      let full_content := String.intercalate "\n\n" audio_transcripts
      if content ≠ "" then full_content ++ "\n\nText message: " ++ content
      else full_content
    else content
  pure (content, images)

/-! ## `agent.py` — the AgentClient -/

/-- A media dict as `Agent.invoke` inspects it: the keys it looks for
(`url`, `content_type`) and the key the channel actually supplies
(`image_url`). -/
structure MediaDict where
  url : Option String := none
  content_type : Option String := none
  image_url : Option String := none
deriving Repr, DecidableEq

/-- The content block `Agent.invoke` builds from a media dict carrying both
`url` and `content_type`; other dicts are skipped. -/
def mediaBlock : MediaDict → Option ContentBlock
  | ⟨some u, some ct, _⟩ =>
    some (.media ((splitChar '/' ct).headD "") u ct)
  | _ => none

/-- The ordered content blocks of the user message: one text block when the
text is nonempty, then one block per qualifying media dict. -/
def message_content_of (user_message : String)
    (media : Option (List MediaDict)) : List ContentBlock :=
  (if user_message ≠ "" then [ContentBlock.text user_message] else []) ++
  (match media with
   | some items => items.filterMap mediaBlock
   | none => [])

/-- The `request_payload` dict of `Agent.invoke`. -/
def Agent.payload (w : ExternalWorld) (id user_message : String)
    (media : Option (List MediaDict)) : RunPayload :=
  let mc := message_content_of user_message media
  { thread_id := uuid5dns id,
    assistant_id := w.assistant_id,
    role := "user",
    content := if mc ≠ [] then .blocks mc else .raw user_message,
    multitask_strategy := "interrupt",
    if_not_exists := "create",
    stream_mode := "values" }

/-- Embeds `Agent.invoke(id, user_message, media=None)`: build the payload, open
the stream, keep only the last chunk (`final_response` is rebound on every
iteration; an empty stream leaves it unbound — `UnboundLocalError`), and
return `final_response.data["messages"][-1]["content"]`. -/
def Agent.invoke (w : ExternalWorld) (id user_message : String)
    (media : Option (List MediaDict)) : M String := do
  let payload := Agent.payload w id user_message media
  M.emit (.agentInvoke payload.thread_id)
  let chunks := w.agentStream payload
  match chunks.getLast? with
  | none => M.throw "UnboundLocalError: local variable final_response"
  | some final_response =>
    match final_response.messages.getLast? with
    | none => M.throw "IndexError: list index out of range"
    | some m => pure m.content

/-- The keyword arguments `process_message` assembles in `input_data` for
`self.agent.invoke(**input_data)`. -/
structure InvokeKwargs where
  id : String
  user_message : String
  images : Option (List ImageDict) := none
deriving Repr

/-- Python call semantics of `self.agent.invoke(**input_data)`: `invoke`'s
signature is `invoke(self, id, user_message, media=None)`, so a dict that
carries an `images` key raises `TypeError` before the body runs; without
it, `media` defaults to `None`. -/
def Agent.callInvokeKwargs (w : ExternalWorld) (k : InvokeKwargs) : M String :=
  match k.images with
  | some _ =>
    M.throw "TypeError: invoke() got an unexpected keyword argument images"
  | none => Agent.invoke w k.id k.user_message none

/-! ## `channel.py` — the Twilio channel handler -/

/-- Embeds `WhatsAppAgentTwilio.process_message`: require a nonblank `From`
(`HTTPException(400)` otherwise), normalize content and media, assemble
`input_data` (the `images` key only when images exist), and call
`self.agent.invoke(**input_data)`. -/
def process_message (w : ExternalWorld) (form : Form) : M String := do
  let sender := pyStrip (Form.get form "From" "")
  if sender = "" then
    M.throw "HTTPException(400): Missing From in request form"
  else do
    let (content, images) ← prepare_message_content w form
    let kwargs : InvokeKwargs :=
      { id := sender, user_message := content,
        images := if images ≠ [] then some images else none }
    Agent.callInvokeKwargs w kwargs

/-- Embeds `WhatsAppAgentTwilio.send_whatsapp_message`: pick the `from` number
(argument, else configured number; raise when both are falsy), prefix both
numbers with `whatsapp:` when missing, and call the Twilio create API. -/
def send_whatsapp_message (w : ExternalWorld)
    (to_number message from_number : String) : M String := do
  let whatsapp_from : Option String :=
    if from_number ≠ "" then some from_number else w.twilio_whatsapp_number
  if ¬ truthyOpt whatsapp_from then
    M.throw "ValueError: WhatsApp from number not configured"
  else do
    let wf := whatsapp_from.getD ""
    let to_number := if strStartsWith to_number "whatsapp:" then to_number
                     else "whatsapp:" ++ to_number
    let wf := if strStartsWith wf "whatsapp:" then wf
              else "whatsapp:" ++ wf
    M.emit (.sendMessage wf to_number message)
    match w.sendCreate wf to_number message with
    | .ok sid => pure sid
    | .error e => M.throw e

/-! ## `server.py` — gateway, middleware, two-phase protocol -/

/-- The HTTP response of the webhook call. -/
structure HttpResponse where
  status : Nat
  body : String
  media_type : String := ""
deriving Repr, DecidableEq

/-- Embeds `str(MessagingResponse())` — the empty acknowledgment TwiML document. -/
def emptyTwiml : String :=
  "<?xml version=\"1.0\" encoding=\"UTF-8\"?><Response />"

/-- The inbound HTTP request as the middleware sees it. -/
structure HttpRequest where
  path : String
  method : String
  /-- Embeds `request.url.scheme`. -/
  scheme : String
  /-- The `Host` header. -/
  hostHeader : Option String
  xForwardedProto : Option String
  xForwardedHost : Option String
  xTwilioSignature : Option String
  /-- The decoded form body. -/
  form : Form

/-- The URL the middleware validates against: forwarded-proto/host headers
when present, the request's own scheme and `Host` otherwise (a missing host
renders as Python `str(None)` inside the f-string). -/
def reconstructedUrl (r : HttpRequest) : String :=
  let proto := r.xForwardedProto.getD r.scheme
  let host := match r.xForwardedHost with
    | some h => h
    | none => match r.hostHeader with
      | some h => h
      | none => "None"
  proto ++ "://" ++ host ++ r.path

/-- Embeds `parse_qs` grouping followed by the middleware's `v[0]` flattening:
for each key, the first value wins. -/
def flattenForm (f : Form) : Form :=
  (f.map Prod.fst).eraseDups.map (fun k => (k, Form.getFirst f k ""))

/-- Embeds `TwilioMiddleware.dispatch` with the `RequestValidator.validate` of the
Twilio SDK supplied as an oracle: guard only POSTs to the webhook path;
an invalid signature yields the 401 response and `call_next` never runs. -/
def TwilioMiddleware.dispatch (validate : String → Form → String → Bool)
    (path : String) (r : HttpRequest)
    (call_next : HttpRequest → HttpResponse × List Event) :
    HttpResponse × List Event :=
  if r.path = path && r.method = "POST" then
    let url := reconstructedUrl r
    let sig := (r.xTwilioSignature).getD ""
    if validate url (flattenForm r.form) sig then call_next r
    else ({ status := 401, body := "Invalid Twilio signature" }, [])
  else call_next r

/-- The background closure `process_message_async` of
`whatsapp_reply_twilio`: read `To`, process the message, send the reply;
every exception is caught and only logged.  Its value is the event trace it
leaves behind. -/
def process_message_async (w : ExternalWorld) (form : Form)
    (sender : String) : List Event :=
  let body : M Unit := do
    let to_number := pyStrip (Form.get form "To" "")
    let reply_text ← process_message w form
    let _ ← send_whatsapp_message w sender reply_text to_number
    pure ()
  match body [] with
  | .ok _ t => t
  | .error _ t => t

/-- Embeds `whatsapp_reply_twilio`: read the form, capture the stripped sender,
register `process_message_async` as a background task, and return the empty
TwiML acknowledgment at once.  The result pairs the synchronous response
with the registered background work. -/
def whatsapp_reply_twilio (w : ExternalWorld) (form : Form) :
    HttpResponse × List (List Event) :=
  let sender := pyStrip (Form.get form "From" "")
  ({ status := 200, body := emptyTwiml, media_type := "application/xml" },
   [process_message_async w form sender])

/-- Starlette semantics of `BackgroundTasks`: the response is sent first,
then the registered tasks run, in order. -/
def runWithBackground (p : HttpResponse × List (List Event)) : List Event :=
  Event.respond p.1.status p.1.body :: p.2.flatten

/-- The whole application on one request: the middleware guards the handler;
when it passes, the handler's response is sent and its background tasks run. -/
def runTwilioApp (w : ExternalWorld)
    (validate : String → Form → String → Bool) (r : HttpRequest) :
    HttpResponse × List Event :=
  TwilioMiddleware.dispatch validate "/whatsapp" r (fun r' =>
    let p := whatsapp_reply_twilio w r'.form
    (p.1, runWithBackground p))

/-! ## Concrete fixtures for witnesses and counterexamples -/

/-- A fully configured world: fetches succeed with a small PNG, the Whisper
backend transcribes, the agent stream yields three checkpoints, the
outbound send succeeds. -/
def wT : ExternalWorld :=
  { twilio_account_sid := some "AC123", twilio_auth_token := some "tok",
    twilio_whatsapp_number := some "+10000000000",
    openai_api_key := some "sk-test", assistant_id := "agent",
    fetchMedia := fun _ => .ok ([1, 2, 3], some "image/png"),
    whisper := fun _ _ => .ok "what is gravity",
    agentStream := fun _ => [⟨[⟨"first"⟩]⟩, ⟨[⟨"second"⟩]⟩, ⟨[⟨"the reply"⟩]⟩],
    sendCreate := fun _ _ _ => .ok "SM1" }

/-- Embeds `wT` with failing media downloads. -/
def wFetchFail : ExternalWorld :=
  { wT with fetchMedia := fun _ => .error "requests.RequestException" }

/-- Embeds `wT` with audio-sized successful downloads. -/
def wAudio : ExternalWorld :=
  { wT with
    fetchMedia := fun _ => .ok (List.replicate 200 7, some "audio/ogg") }

/-- Embeds `wT` whose downloads come back typed `application/pdf`. -/
def wPdf : ExternalWorld :=
  { wT with fetchMedia := fun _ => .ok ([1, 2, 3], some "application/pdf") }

/-- A webhook form carrying one image attachment. -/
def formImg : Form :=
  [("From", "whatsapp:+15551234567"), ("Body", "hi"),
   ("To", "whatsapp:+19990000000"), ("NumMedia", "1"),
   ("MediaUrl0", "https://api.twilio.com/m/0"),
   ("MediaContentType0", "image/jpeg")]

/-- A webhook form carrying one voice note plus a text body. -/
def formAudio : Form :=
  [("From", "whatsapp:+15551234567"), ("Body", "extra question"),
   ("NumMedia", "1"), ("MediaUrl0", "https://api.twilio.com/m/a"),
   ("MediaContentType0", "audio/ogg")]

/-- A plain text-only webhook form. -/
def formText : Form := [("From", "whatsapp:+15551234567"), ("Body", "2+2=?")]

/-- A request to the webhook path with a given form body. -/
def mkReq (form : Form) : HttpRequest :=
  { path := "/whatsapp", method := "POST", scheme := "https",
    hostHeader := some "example.com", xForwardedProto := none,
    xForwardedHost := none, xTwilioSignature := some "sig", form := form }

/-- A signature validator oracle that accepts everything. -/
def acceptAll : String → Form → String → Bool := fun _ _ _ => true

/-- A signature validator oracle that rejects everything. -/
def rejectAll : String → Form → String → Bool := fun _ _ _ => false

/-! ## Helper lemmas about the monad -/

theorem M.bind_def {α β : Type} (x : M α) (f : α → M β) (t : List Event) :
    (x >>= f) t = match x t with
      | .ok a t' => f a t'
      | .error e t' => .error e t' := rfl

theorem M.pure_def {α : Type} (a : α) (t : List Event) :
    (pure a : M α) t = .ok a t := rfl

theorem M.tryCatch_def {α : Type} (x : M α) (h : String → M α)
    (t : List Event) :
    M.tryCatch x h t = match x t with
      | .ok a t' => .ok a t'
      | .error e t' => h e t' := rfl

/-- A `tryCatch` whose handler never fails, never fails. -/
theorem M.tryCatch_ok {α : Type} (x : M α) (h : String → M α)
    (hh : ∀ e t, ∃ r t', h e t = .ok r t') (t : List Event) :
    ∃ r t', M.tryCatch x h t = .ok r t' := by
  unfold M.tryCatch
  cases hx : x t with
  | ok a t' => exact ⟨a, t', rfl⟩
  | error e t' => exact hh e t'

/-- The audio branch never raises: the sentinel handler absorbs every
failure. -/
theorem twilio_url_to_audio_transcript_ok (w : ExternalWorld)
    (url ctype : String) (t : List Event) :
    ∃ r t', twilio_url_to_audio_transcript w url ctype t = .ok r t' := by
  unfold twilio_url_to_audio_transcript
  exact M.tryCatch_ok _ _ (fun e t => ⟨_, t, rfl⟩) t

/-- The media loop never raises: each branch degrades locally and recurses. -/
theorem process_media_loop_ok (w : ExternalWorld) (form : Form) :
    ∀ (idxs : List Nat) (acc : List ImageDict × List String) (t : List Event),
      ∃ r t', process_media_loop w form idxs acc t = .ok r t' := by
  intro idxs
  induction idxs with
  | nil => exact fun acc t => ⟨acc, t, rfl⟩
  | cons i rest ih =>
    intro acc t
    obtain ⟨images, audio_transcripts⟩ := acc
    rw [process_media_loop]
    by_cases himg : (Form.get form ("MediaUrl" ++ toString i) "" ≠ "" &&
        is_image_content_type
          (Form.get form ("MediaContentType" ++ toString i) "")) = true
    · simp only [himg, if_pos]
      rw [M.bind_def]
      obtain ⟨r1, t1, h1⟩ := M.tryCatch_ok
        (do
          let du ← twilio_url_to_data_uri w
            (Form.get form ("MediaUrl" ++ toString i) "")
            (some (Form.get form ("MediaContentType" ++ toString i) ""))
          pure (images ++ [⟨Form.get form ("MediaUrl" ++ toString i) "", du⟩]))
        (fun _ => pure images) (fun e t => ⟨images, t, rfl⟩) t
      rw [h1]
      exact ih _ t1
    · simp only [himg, if_neg, Bool.false_eq_true, not_false_eq_true,
        if_false]
      by_cases haud : (Form.get form ("MediaUrl" ++ toString i) "" ≠ "" &&
          is_audio_content_type
            (Form.get form ("MediaContentType" ++ toString i) "")) = true
      · simp only [haud, if_pos]
        rw [M.bind_def]
        obtain ⟨r1, t1, h1⟩ := twilio_url_to_audio_transcript_ok w
          (Form.get form ("MediaUrl" ++ toString i) "")
          (Form.get form ("MediaContentType" ++ toString i) "") t
        rw [h1]
        exact ih _ t1
      · simp only [haud, Bool.false_eq_true, not_false_eq_true, if_false]
        exact ih _ t

/-- On a POST to the webhook path with a valid signature, the application
sends the empty-TwiML acknowledgment and then runs the background task. -/
theorem runTwilioApp_valid (w : ExternalWorld)
    (validate : String → Form → String → Bool) (r : HttpRequest)
    (hpath : r.path = "/whatsapp") (hmethod : r.method = "POST")
    (hsig : validate (reconstructedUrl r) (flattenForm r.form)
      ((r.xTwilioSignature).getD "") = true) :
    runTwilioApp w validate r =
      ({ status := 200, body := emptyTwiml, media_type := "application/xml" },
       Event.respond 200 emptyTwiml ::
         process_message_async w r.form
           (pyStrip (Form.get r.form "From" ""))) := by
  unfold runTwilioApp TwilioMiddleware.dispatch
  rw [hpath, hmethod]
  simp [hsig, whatsapp_reply_twilio, runWithBackground, emptyTwiml]

/-- C1: every POST to the webhook endpoint that passes signature validation
receives the empty acknowledgment response before any background step: the
synchronous response is the first element of the event trace, and every
processing event (media fetch, transcription, agent call, outbound send)
occupies a strictly later position. -/
theorem c1_ack_precedes_background_processing (w : ExternalWorld)
    (validate : String → Form → String → Bool) (r : HttpRequest)
    (hpath : r.path = "/whatsapp") (hmethod : r.method = "POST")
    (hsig : validate (reconstructedUrl r) (flattenForm r.form)
      ((r.xTwilioSignature).getD "") = true) :
    (runTwilioApp w validate r).2.head? =
      some (Event.respond 200 emptyTwiml) ∧
    ∀ i e, (runTwilioApp w validate r).2[i]? = some e →
      e.isProcessing = true → 0 < i := by
  rw [runTwilioApp_valid w validate r hpath hmethod hsig]
  refine ⟨rfl, ?_⟩
  intro i e he hp
  cases i with
  | zero =>
    simp only [List.getElem?_cons_zero, Option.some.injEq] at he
    rw [← he] at hp
    simp [Event.isProcessing] at hp
  | succ n => exact Nat.succ_pos n

/-- C1 witness: the property at a concrete valid request. -/
theorem c1_witness :
    (runTwilioApp wT acceptAll (mkReq formText)).2.head? =
      some (Event.respond 200 emptyTwiml) ∧
    ∀ i e, (runTwilioApp wT acceptAll (mkReq formText)).2[i]? = some e →
      e.isProcessing = true → 0 < i :=
  c1_ack_precedes_background_processing wT acceptAll (mkReq formText)
    rfl rfl rfl

/-- C4: a POST to the webhook path whose signature does not validate against
the reconstructed URL and form receives the 401 response, and nothing else
happens: `call_next` never runs, the trace is empty. -/
theorem c4_invalid_signature_rejected (w : ExternalWorld)
    (validate : String → Form → String → Bool) (r : HttpRequest)
    (hpath : r.path = "/whatsapp") (hmethod : r.method = "POST")
    (hsig : validate (reconstructedUrl r) (flattenForm r.form)
      ((r.xTwilioSignature).getD "") = false) :
    runTwilioApp w validate r =
      ({ status := 401, body := "Invalid Twilio signature", media_type := "" },
       []) := by
  unfold runTwilioApp TwilioMiddleware.dispatch
  rw [hpath, hmethod]
  simp [hsig]

/-- C4 witness: a concrete rejected request. -/
theorem c4_witness :
    runTwilioApp wT rejectAll (mkReq formText) =
      ({ status := 401, body := "Invalid Twilio signature", media_type := "" },
       []) :=
  c4_invalid_signature_rejected wT rejectAll (mkReq formText) rfl rfl rfl

/-- A request whose form has no `From` field at all. -/
def reqNoFrom : HttpRequest := mkReq [("Body", "hi")]

/-- C3 counterexample: a validly signed POST whose form lacks `From` is
answered with status 200 (the acknowledgment), not a 400-class error —
the `HTTPException(400)` of `process_message` is raised inside the
background task, after the response has been produced. -/
theorem c3_counterexample :
    (runTwilioApp wT acceptAll reqNoFrom).1.status = 200 ∧
    ¬ (400 ≤ (runTwilioApp wT acceptAll reqNoFrom).1.status ∧
       (runTwilioApp wT acceptAll reqNoFrom).1.status < 500) := by
  constructor
  · rfl
  · intro h
    have := h.1
    simp [runTwilioApp_valid wT acceptAll reqNoFrom rfl rfl rfl] at this

/-- C3 amended: on a validly signed POST whose form lacks a non-blank
`From`, the gateway still answers with the 200 acknowledgment, and the
background task aborts before any downstream call: the whole trace is the
acknowledgment alone — no media fetch, no transcription, no agent
invocation, no outbound send. -/
theorem c3_missing_from_acked_no_downstream (w : ExternalWorld)
    (validate : String → Form → String → Bool) (r : HttpRequest)
    (hpath : r.path = "/whatsapp") (hmethod : r.method = "POST")
    (hsig : validate (reconstructedUrl r) (flattenForm r.form)
      ((r.xTwilioSignature).getD "") = true)
    (hfrom : pyStrip (Form.get r.form "From" "") = "") :
    (runTwilioApp w validate r).1 =
      { status := 200, body := emptyTwiml, media_type := "application/xml" } ∧
    (runTwilioApp w validate r).2 = [Event.respond 200 emptyTwiml] := by
  rw [runTwilioApp_valid w validate r hpath hmethod hsig]
  refine ⟨rfl, ?_⟩
  have hpm : process_message w r.form =
      M.throw "HTTPException(400): Missing From in request form" := by
    unfold process_message
    rw [hfrom]
    rfl
  simp [process_message_async, M.bind_def, hpm, M.throw]

/-- C3 witness for the amended claim: the concrete `From`-less request. -/
theorem c3_amended_witness :
    (runTwilioApp wT acceptAll reqNoFrom).1 =
      { status := 200, body := emptyTwiml, media_type := "application/xml" } ∧
    (runTwilioApp wT acceptAll reqNoFrom).2 =
      [Event.respond 200 emptyTwiml] :=
  c3_missing_from_acked_no_downstream wT acceptAll reqNoFrom rfl rfl rfl
    (by decide)

/-- C5: whenever the download-and-transcribe attempt for an audio attachment
raises, `twilio_url_to_audio_transcript` returns the fixed sentinel
`"[Audio transcription failed]"` instead of propagating the failure (the
trace left by the failed attempt is preserved); and with a well-formed
`NumMedia`, `process_twilio_media` always completes — no attachment failure
aborts the turn. -/
theorem c5_audio_failure_sentinel :
    (∀ (w : ExternalWorld) (url ctype : String) (t : List Event) (e : String)
        (t' : List Event),
      audio_transcript_attempt w url ctype t = .error e t' →
      twilio_url_to_audio_transcript w url ctype t =
        .ok (some "[Audio transcription failed]") t') ∧
    (∀ (w : ExternalWorld) (form : Form) (n : Int),
      pyInt (Form.get form "NumMedia" "0") = some n →
      ∀ t, ∃ r t', process_twilio_media w form t = .ok r t') := by
  constructor
  · intro w url ctype t e t' h
    unfold twilio_url_to_audio_transcript M.tryCatch
    rw [h]
    rfl
  · intro w form n h t
    unfold process_twilio_media
    rw [h]
    exact process_media_loop_ok w form (List.range n.toNat) ([], []) t

/-- C5 witness: a failing download yields the sentinel, and the turn with
that attachment still completes. -/
theorem c5_witness :
    twilio_url_to_audio_transcript wFetchFail "https://api.twilio.com/m/a"
        "audio/ogg" [] =
      .ok (some "[Audio transcription failed]")
        [Event.fetchMedia "https://api.twilio.com/m/a"] ∧
    ∃ r t',
      process_twilio_media wFetchFail formAudio [] = .ok r t' :=
  ⟨c5_audio_failure_sentinel.1 wFetchFail "https://api.twilio.com/m/a"
      "audio/ogg" [] "requests.RequestException"
      [Event.fetchMedia "https://api.twilio.com/m/a"] rfl,
   c5_audio_failure_sentinel.2 wFetchFail formAudio 1 (by decide) []⟩

/-- C6 counterexample: `twilio_url_to_data_uri` called with the declared
content type `application/pdf` — not an image type — embeds it verbatim:
the result is `data:application/pdf;base64,...`, not the
`data:image/jpeg;base64,...` the claimed coercion would produce. -/
theorem c6_counterexample :
    twilio_url_to_data_uri wT "u" (some "application/pdf") [] =
      .ok "data:application/pdf;base64,AQID" [Event.fetchMedia "u"] ∧
    "data:application/pdf;base64,AQID" ≠ "data:image/jpeg;base64,AQID" := by
  exact ⟨rfl, by decide⟩

/-- C6 amended: for a successfully fetched attachment the embeddable
reference is exactly `"data:" ++ MIME ++ ";base64," ++ base64(bytes)`.
When a (nonempty) content type is declared — as the image pipeline always
does — MIME is that declared type, never coerced; the `image/jpeg` coercion
applies only when no content type is declared and the detected (response
header) type is not an image type. -/
theorem c6_data_uri_formula :
    (∀ (w : ExternalWorld) (url ct : String) (bs : List Nat)
        (hdr : Option String) (t : List Event),
      truthyOpt w.twilio_account_sid = true →
      truthyOpt w.twilio_auth_token = true →
      ct ≠ "" →
      w.fetchMedia url = .ok (bs, hdr) →
      twilio_url_to_data_uri w url (some ct) t =
        .ok ("data:" ++ ct ++ ";base64," ++ base64Encode bs)
          (t ++ [Event.fetchMedia url])) ∧
    (∀ (w : ExternalWorld) (url det : String) (bs : List Nat)
        (t : List Event),
      truthyOpt w.twilio_account_sid = true →
      truthyOpt w.twilio_auth_token = true →
      w.fetchMedia url = .ok (bs, some det) →
      det ≠ "" →
      strStartsWith det "image/" = false →
      twilio_url_to_data_uri w url none t =
        .ok ("data:image/jpeg;base64," ++ base64Encode bs)
          (t ++ [Event.fetchMedia url])) := by
  constructor
  · intro w url ct bs hdr t hsid htok hct hfetch
    unfold twilio_url_to_data_uri download_twilio_media
      validate_twilio_credentials
    simp [hsid, htok, M.bind_def, M.pure_def, M.emit, hfetch, hct,
      bytes_to_data_uri]
  · intro w url det bs t hsid htok hfetch hdet himg
    unfold twilio_url_to_data_uri download_twilio_media
      validate_twilio_credentials
    simp [hsid, htok, M.bind_def, M.pure_def, M.emit, hfetch, hdet, himg,
      bytes_to_data_uri]

/-- C6 witness: both branches of the amended claim at concrete inputs. -/
theorem c6_witness :
    twilio_url_to_data_uri wT "u" (some "image/jpeg") [] =
      .ok ("data:" ++ "image/jpeg" ++ ";base64," ++ base64Encode [1, 2, 3])
        ([] ++ [Event.fetchMedia "u"]) ∧
    twilio_url_to_data_uri wPdf "u" none [] =
      .ok ("data:image/jpeg;base64," ++ base64Encode [1, 2, 3])
        ([] ++ [Event.fetchMedia "u"]) :=
  ⟨c6_data_uri_formula.1 wT "u" "image/jpeg" [1, 2, 3] (some "image/png") []
      rfl rfl (by decide) rfl,
   c6_data_uri_formula.2 wPdf "u" "application/pdf" [1, 2, 3] [] rfl rfl rfl
      (by decide) (by decide)⟩

/-- C7 counterexample: with no media and `Body = " hi "`, the normalized
text is the stripped `"hi"`, not the original text `" hi "` unchanged. -/
theorem c7_counterexample :
    prepare_message_content wT [("Body", " hi ")] [] = .ok ("hi", []) [] ∧
    "hi" ≠ " hi " := ⟨rfl, by decide⟩

/-- C7 amended: the normalized text is the audio transcripts joined with
`"\n\n"`, followed by `"\n\nText message: "` plus the **whitespace-stripped**
original text when that stripped text is non-empty; with no transcripts it
is exactly the stripped original text. -/
theorem c7_text_assembly (w : ExternalWorld) (form : Form)
    (imgs : List ImageDict) (trs : List String) (t t' : List Event)
    (h : process_twilio_media w form t = .ok (imgs, trs) t') :
    prepare_message_content w form t =
      .ok ((if trs ≠ [] then
              String.intercalate "\n\n" trs ++
                (if pyStrip (Form.get form "Body" "") ≠ "" then
                  "\n\nText message: " ++ pyStrip (Form.get form "Body" "")
                 else "")
            else pyStrip (Form.get form "Body" "")), imgs) t' := by
  unfold prepare_message_content
  rw [M.bind_def, h]
  by_cases htrs : trs = []
  · simp [htrs, M.pure_def]
  · by_cases hbody : pyStrip (Form.get form "Body" "") = ""
    · simp [htrs, hbody, M.pure_def, String.append_empty]
    · simp [htrs, hbody, M.pure_def, String.append_assoc]

/-- C7 witness: the spec's two instances — a successful transcript plus a
text body, and a text-only turn. -/
theorem c7_witness :
    prepare_message_content wAudio formAudio [] =
      .ok ("what is gravity\n\nText message: extra question", [])
        [Event.fetchMedia "https://api.twilio.com/m/a",
         Event.transcribe "a.ogg"] ∧
    prepare_message_content wT [("Body", "hello")] [] = .ok ("hello", []) [] :=
  ⟨c7_text_assembly wAudio formAudio [] ["what is gravity"] []
      [Event.fetchMedia "https://api.twilio.com/m/a",
       Event.transcribe "a.ogg"] rfl,
   c7_text_assembly wT [("Body", "hello")] [] [] [] [] rfl⟩

/-- C8: `Agent.invoke` returns the content of the last message of the final
streamed checkpoint only — the result is a function of `getLast?` of the
stream, so earlier checkpoints cannot influence it. -/
theorem c8_last_checkpoint_only (w : ExternalWorld) (id um : String)
    (media : Option (List MediaDict)) (chunks : List Chunk) (last : Chunk)
    (m : RespMsg) (t : List Event)
    (hstream : w.agentStream (Agent.payload w id um media) = chunks)
    (hlast : chunks.getLast? = some last)
    (hm : last.messages.getLast? = some m) :
    Agent.invoke w id um media t =
      .ok m.content (t ++ [Event.agentInvoke (uuid5dns id)]) := by
  unfold Agent.invoke
  rw [M.bind_def]
  simp only [M.emit, hstream, hlast, hm]
  simp [Agent.payload, hstream, hlast, hm, M.pure_def]

/-- C8 witness: on a stream of three checkpoints the reply is the last
message of the third. -/
theorem c8_witness :
    Agent.invoke wT "whatsapp:+15551234567" "2+2=?" none [] =
      .ok "the reply"
        ([] ++ [Event.agentInvoke (uuid5dns "whatsapp:+15551234567")]) :=
  c8_last_checkpoint_only wT "whatsapp:+15551234567" "2+2=?" none
    [⟨[⟨"first"⟩]⟩, ⟨[⟨"second"⟩]⟩, ⟨[⟨"the reply"⟩]⟩]
    ⟨[⟨"the reply"⟩]⟩ ⟨"the reply"⟩ [] rfl rfl rfl

/-- C9: the session key is `uuid5(NAMESPACE_DNS, sender)`, a pure function
of the sender address: calling it twice on the same address yields the same
key (no external state), it is exactly the `thread_id` submitted by
`Agent.invoke`, and two distinct concrete addresses map to distinct keys. -/
theorem c9_session_identity :
    (∀ a : String, uuid5dns a = uuid5dns a) ∧
    (∀ (w : ExternalWorld) (um : String) (media : Option (List MediaDict))
        (a : String), (Agent.payload w a um media).thread_id = uuid5dns a) ∧
    uuid5dns "whatsapp:+15551234567" ≠ uuid5dns "whatsapp:+15559876543" :=
  ⟨fun _ => rfl, fun _ _ _ _ => rfl, by decide⟩

/-- C2 (failing input): a turn with non-empty text and one successfully
fetched image never reaches the agent — `channel.py` passes the keyword
`images` but `Agent.invoke`'s signature is `(id, user_message, media=None)`,
so the call raises `TypeError` after the image fetch, and no message is
submitted (the trace holds the fetch and no `agentInvoke`); with zero
images the same pipeline does submit the single text-block message. -/
theorem c2_images_kwarg_type_error :
    process_message wT formImg [] =
      .error "TypeError: invoke() got an unexpected keyword argument images"
        [Event.fetchMedia "https://api.twilio.com/m/0"] ∧
    process_message wT formText [] =
      .ok "the reply"
        [Event.agentInvoke (uuid5dns "whatsapp:+15551234567")] :=
  ⟨rfl, rfl⟩

/-- A malformed `NumMedia` raises before the media loop starts. -/
theorem process_twilio_media_malformed (w : ExternalWorld) (form : Form)
    (t : List Event) (h : pyInt (Form.get form "NumMedia" "0") = none) :
    process_twilio_media w form t =
      .error "ValueError: invalid literal for int() with base 10" t := by
  unfold process_twilio_media
  rw [h]
  rfl

/-- C10: when `NumMedia` is present but not a valid integer, media
processing raises before any attachment is examined (the trace is left
untouched — no fetch, no transcription); the whole background turn then
fails silently, leaving an empty event trace — in particular no reply is
ever sent; and a missing `NumMedia` defaults to zero attachments. -/
theorem c10_malformed_nummedia :
    (∀ (w : ExternalWorld) (form : Form) (t : List Event),
      pyInt (Form.get form "NumMedia" "0") = none →
      process_twilio_media w form t =
        .error "ValueError: invalid literal for int() with base 10" t) ∧
    (∀ (w : ExternalWorld) (form : Form) (sender : String),
      pyInt (Form.get form "NumMedia" "0") = none →
      process_message_async w form sender = []) ∧
    (∀ (w : ExternalWorld) (form : Form) (t : List Event),
      Form.has form "NumMedia" = false →
      process_twilio_media w form t = .ok ([], []) t) := by
  refine ⟨process_twilio_media_malformed, ?_, ?_⟩
  · intro w form sender h
    unfold process_message_async
    by_cases hf : pyStrip (Form.get form "From" "") = ""
    · have hpm : process_message w form =
          M.throw "HTTPException(400): Missing From in request form" := by
        unfold process_message
        rw [hf]
        rfl
      simp [M.bind_def, hpm, M.throw]
    · have hpm : process_message w form [] =
          .error "ValueError: invalid literal for int() with base 10" [] := by
        unfold process_message
        rw [if_neg hf]
        rw [M.bind_def]
        unfold prepare_message_content
        rw [M.bind_def, process_twilio_media_malformed w form [] h]
      simp [M.bind_def, hpm]
  · intro w form t h
    have hnone : List.find? (fun p => p.1 = "NumMedia")
        (form : List (String × String)) = none := by
      unfold Form.has at h
      cases hfind : List.find? (fun p => p.1 = "NumMedia")
          (form : List (String × String)) with
      | none => rfl
      | some v => rw [hfind] at h; simp at h
    have hget : Form.get form "NumMedia" "0" = "0" := by
      unfold Form.get
      have hrev : List.find? (fun p => p.1 = "NumMedia")
          (form : List (String × String)).reverse = none := by
        rw [List.find?_eq_none] at hnone ⊢
        intro x hx
        exact hnone x (List.mem_reverse.mp hx)
      rw [hrev]
    unfold process_twilio_media
    rw [hget]
    rfl

/-- C10 witness: `NumMedia = "abc"` raises and leaves an empty background
trace; an absent `NumMedia` yields zero attachments. -/
theorem c10_witness :
    process_twilio_media wT [("NumMedia", "abc")] [] =
      .error "ValueError: invalid literal for int() with base 10" [] ∧
    process_message_async wT
      [("From", "whatsapp:+15551234567"), ("NumMedia", "abc")]
      "whatsapp:+15551234567" = [] ∧
    process_twilio_media wT [("Body", "hello")] [] = .ok ([], []) [] :=
  ⟨c10_malformed_nummedia.1 wT [("NumMedia", "abc")] [] (by decide),
   c10_malformed_nummedia.2.1 wT
     [("From", "whatsapp:+15551234567"), ("NumMedia", "abc")]
     "whatsapp:+15551234567" (by decide),
   c10_malformed_nummedia.2.2 wT [("Body", "hello")] [] (by decide)⟩
